import Mathlib

/-!
Verification of the `@beorn/logger` core: a shallow embedding of the
namespace-filter engine, the span lifecycle engine and the worker relay
protocol from `src/index.ts` and `src/worker.ts`, together with proofs of
the specified properties.

Modelling conventions:
* JavaScript runtime values stored in prop / attribute maps are modelled by
  the inductive `JsValue`; JS objects by insertion-ordered association
  lists with `setProp` / `getProp` / `spreadInto` mirroring property
  assignment, property lookup and object spread.
* `Date.now()` timestamps are modelled as `Int` values threaded explicitly
  (`now` parameters); no clock monotonicity is assumed unless a theorem
  states it as a hypothesis.
* The module-level mutable configuration of `index.ts` (log level, span
  switch, the two namespace filters, output options) is gathered in the
  `Config` structure; functions that mutate it become `Config → Config`.
* The two id counters of each side are the `IdGen` / `WorkerIdGen`
  structures; `x.toString(36)` is `toString36`.
-/

namespace BeornLogger

/-- JavaScript-style runtime values stored in prop/attribute maps. -/
inductive JsValue where
  | vNull : JsValue
  | vBool : Bool → JsValue
  | vNum : Int → JsValue
  | vStr : String → JsValue
deriving DecidableEq, Repr

/-- JS object property read: the value at the matching key, if present. -/
def getProp (m : List (String × JsValue)) (k : String) : Option JsValue :=
  (m.find? (fun p => p.1 == k)).map (fun p => p.2)

/-- JS object property assignment: overwrites the value in place when the key
already exists, otherwise appends the binding (insertion order preserved). -/
def setProp (m : List (String × JsValue)) (k : String) (v : JsValue) :
    List (String × JsValue) :=
  if m.any (fun p => p.1 == k) then
    m.map (fun p => if p.1 == k then (k, v) else p)
  else m ++ [(k, v)]

/-- JS object spread `{ ...base, ...extra }`: every binding of `extra`
assigned onto `base` in order. -/
def spreadInto (base extra : List (String × JsValue)) : List (String × JsValue) :=
  extra.foldl (fun acc p => setProp acc p.1 p.2) base

/-- JS `String.prototype.startsWith`, modelled on the character sequence. -/
def jsStartsWith (s pat : String) : Bool := pat.data.isPrefixOf s.data

/-- JS `String.prototype.slice(1)`: drop the first character. -/
def jsSliceOne (s : String) : String := String.mk s.data.tail

/-- Log levels of `index.ts` (`LogLevel`), including `silent`. -/
inductive LogLevel where
  | trace | debug | info | warn | error | silent
deriving DecidableEq, Repr

/-- `LOG_LEVEL_PRIORITY` from `index.ts`. -/
def LOG_LEVEL_PRIORITY : LogLevel → Nat
  | .trace => 0
  | .debug => 1
  | .info => 2
  | .warn => 3
  | .error => 4
  | .silent => 5

/-- `OutputMode` from `index.ts`. -/
inductive OutputMode where
  | console | stderr | writersOnly
deriving DecidableEq, Repr

/-- The module-level mutable configuration state of `index.ts`. -/
structure Config where
  currentLogLevel : LogLevel
  spansEnabled : Bool
  traceFilter : Option (List String)
  debugIncludes : Option (List String)
  debugExcludes : Option (List String)
  suppressConsole : Bool
  outputMode : OutputMode
deriving DecidableEq, Repr

/-- The initial configuration when no environment variables are set:
level `info`, spans disabled, no filters. -/
def defaultConfig : Config :=
  { currentLogLevel := .info, spansEnabled := false, traceFilter := none,
    debugIncludes := none, debugExcludes := none, suppressConsole := false,
    outputMode := .console }

/-- `matchesNamespaceSet` from `index.ts` lines 343-351: a literal `"*"`
member matches everything; otherwise a pattern matches on string equality or
on strict colon-delimited prefix. JS `Set` membership is modelled by list
membership. -/
def matchesNamespaceSet (ns : String) (set : List String) : Bool :=
  if set.contains "*" then true
  else set.any (fun pat => ns == pat || jsStartsWith ns (pat ++ ":"))

/-- `shouldDebugNamespace` from `index.ts` lines 353-362: unrestricted when
both debug filter sets are null; excludes take priority; then includes must
match when present. -/
def shouldDebugNamespace (ns : String) (c : Config) : Bool :=
  if c.debugIncludes.isNone && c.debugExcludes.isNone then true
  else if c.debugExcludes.elim false (fun ex => matchesNamespaceSet ns ex) then false
  else c.debugIncludes.elim true (fun inc => matchesNamespaceSet ns inc)

/-- `shouldLog` from `index.ts`: level priority at least the threshold. -/
def shouldLog (level : LogLevel) (c : Config) : Bool :=
  decide (LOG_LEVEL_PRIORITY level ≥ LOG_LEVEL_PRIORITY c.currentLogLevel)

/-- `shouldTraceNamespace` from `index.ts` lines 284-288. -/
def shouldTraceNamespace (ns : String) (c : Config) : Bool :=
  if !c.spansEnabled then false
  else
    match c.traceFilter with
    | none => true
    | some tf => matchesNamespaceSet ns tf

/-- The emission decision of `writeLog` (`index.ts` lines 364-366): both the
level threshold and the debug namespace filter must pass. -/
def writeLogEmits (ns : String) (level : LogLevel) (c : Config) : Bool :=
  shouldLog level c && shouldDebugNamespace ns c

/-- The emission decision of `writeSpan` (`index.ts` lines 400-402): the
trace gate and the debug namespace filter must pass; the level threshold is
not consulted. -/
def writeSpanEmits (ns : String) (c : Config) : Bool :=
  shouldTraceNamespace ns c && shouldDebugNamespace ns c

/-- `setTraceFilter` from `index.ts` lines 207-214: null or an empty list
clears the filter; a non-empty list installs it and force-enables spans. -/
def setTraceFilter (namespaces : Option (List String)) (c : Config) : Config :=
  match namespaces with
  | none => { c with traceFilter := none }
  | some nss =>
    if nss.isEmpty then { c with traceFilter := none }
    else { c with traceFilter := some nss, spansEnabled := true }

/-- `setDebugFilter` from `index.ts` lines 228-248: null or empty clears both
sets; otherwise the list is split on a leading `-` into includes/excludes
(empty side becoming null) and the level threshold is lowered to at most
`debug` when it is coarser. -/
def setDebugFilter (namespaces : Option (List String)) (c : Config) : Config :=
  match namespaces with
  | none => { c with debugIncludes := none, debugExcludes := none }
  | some nss =>
    if nss.isEmpty then { c with debugIncludes := none, debugExcludes := none }
    else
      let includes := nss.filter (fun p => !(jsStartsWith p "-"))
      let excludes := (nss.filter (fun p => jsStartsWith p "-")).map jsSliceOne
      { c with
        debugIncludes := if includes.isEmpty then none else some includes,
        debugExcludes := if excludes.isEmpty then none else some excludes,
        currentLogLevel :=
          if LOG_LEVEL_PRIORITY c.currentLogLevel > LOG_LEVEL_PRIORITY .debug then
            .debug
          else c.currentLogLevel }

/-- `getDebugFilter` from `index.ts` lines 251-257: null when both sets are
null, otherwise the includes followed by the excludes re-marked with `-`. -/
def getDebugFilter (c : Config) : Option (List String) :=
  if c.debugIncludes.isNone && c.debugExcludes.isNone then none
  else some ((c.debugIncludes.getD []) ++ (c.debugExcludes.getD []).map (fun e => "-" ++ e))

/-- One digit of JS `Number.prototype.toString(36)` (`0-9a-z`). -/
def toBase36digit (n : Nat) : Char :=
  if n < 10 then Char.ofNat (48 + n) else Char.ofNat (87 + n)

/-- Fuel-driven digit accumulation for `toString36`. -/
def toBase36Core : Nat → Nat → List Char → List Char
  | 0, _, ds => ds
  | fuel+1, n, ds =>
    let d := toBase36digit (n % 36)
    let m := n / 36
    if m = 0 then d :: ds else toBase36Core fuel m (d :: ds)

/-- JS `n.toString(36)` for natural numbers. -/
def toString36 (n : Nat) : String := String.mk (toBase36Core (n + 1) n [])

/-- `generateSpanId` from `index.ts`, applied to the post-increment counter. -/
def generateSpanId (n : Nat) : String := "sp_" ++ toString36 n

/-- `generateTraceId` from `index.ts`, applied to the post-increment counter. -/
def generateTraceId (n : Nat) : String := "tr_" ++ toString36 n

/-- `generateWorkerSpanId` from `worker.ts`. -/
def generateWorkerSpanId (n : Nat) : String := "wsp_" ++ toString36 n

/-- `generateWorkerTraceId` from `worker.ts`. -/
def generateWorkerTraceId (n : Nat) : String := "wtr_" ++ toString36 n

/-- The two module-level id counters of `index.ts`. -/
structure IdGen where
  spanIdCounter : Nat
  traceIdCounter : Nat
deriving DecidableEq, Repr

/-- The two module-level id counters of `worker.ts`. -/
structure WorkerIdGen where
  workerSpanIdCounter : Nat
  workerTraceIdCounter : Nat
deriving DecidableEq, Repr

/-- `MutableSpanData` from `index.ts` lines 416-424. -/
structure MutableSpanData where
  id : String
  traceId : String
  parentId : Option String
  startTime : Int
  endTime : Option Int
  duration : Option Int
  attrs : List (String × JsValue)
deriving DecidableEq, Repr

/-- The `duration` branch of the `spanData` proxy `get` trap
(`index.ts` lines 462-467): frozen once `endTime` is set, live otherwise. -/
def spanDataGetDuration (m : MutableSpanData) (now : Int) : Int :=
  match m.endTime with
  | some e => e - m.startTime
  | none => now - m.startTime

/-- The `spanData` proxy `set` trap (`index.ts` lines 470-484): custom keys
are stored in `attrs` (trap result `true`); the six structural keys are left
untouched (trap result `false`, value discarded, no exception raised by the
trap). -/
def spanDataSet (m : MutableSpanData) (k : String) (v : JsValue) :
    MutableSpanData × Bool :=
  if k != "id" && k != "traceId" && k != "parentId" &&
     k != "startTime" && k != "endTime" && k != "duration" then
    ({ m with attrs := setProp m.attrs k v }, true)
  else (m, false)

/-- The identity of a logger produced by `createLoggerImpl`: namespace,
props, and the span context (`parentSpanId`, `traceId`) under which new
spans are created. -/
structure LoggerCtx where
  name : String
  props : List (String × JsValue)
  parentSpanId : Option String
  traceId : Option String
deriving DecidableEq, Repr

/-- `createPlainLogger` from `index.ts`: root logger with no span context. -/
def createPlainLoggerCtx (name : String) (props : List (String × JsValue)) : LoggerCtx :=
  ⟨name, props, none, none⟩

/-- Result of the local `span` method: the new span's mutable data, the
span logger's own context (child name, merged props, new span/trace ids)
and the updated id counters. -/
structure SpanCreation where
  meta : MutableSpanData
  child : LoggerCtx
  gen : IdGen
deriving DecidableEq, Repr

/-- The `span` method from `index.ts` lines 500-517: extends the namespace,
merges props, allocates a fresh span id, inherits the trace id from the
context (generating a fresh one only when absent), records the context's
span id as `parentId` and starts the clock. -/
def span (ctx : LoggerCtx) (seg : Option String)
    (childProps : List (String × JsValue)) (g : IdGen) (now : Int) : SpanCreation :=
  let childName := match seg with | some s => ctx.name ++ ":" ++ s | none => ctx.name
  let mergedProps := spreadInto ctx.props childProps
  let g1 : IdGen := { g with spanIdCounter := g.spanIdCounter + 1 }
  let newSpanId := generateSpanId g1.spanIdCounter
  let tr : String × IdGen :=
    match ctx.traceId with
    | some t => (t, g1)
    | none => (generateTraceId (g1.traceIdCounter + 1),
               { g1 with traceIdCounter := g1.traceIdCounter + 1 })
  { meta := { id := newSpanId, traceId := tr.1, parentId := ctx.parentSpanId,
              startTime := now, endTime := none, duration := none, attrs := [] },
    child := { name := childName, props := mergedProps,
               parentSpanId := some newSpanId, traceId := some tr.1 },
    gen := tr.2 }

/-- The arguments of one `writeSpan` call (the local span emission). -/
structure WriteSpanCall where
  name : String
  duration : Int
  attrs : List (String × JsValue)
deriving DecidableEq, Repr

/-- The `Symbol.dispose` handler installed on a local span logger
(`index.ts` lines 519-533): no-op when already ended, otherwise freezes
`endTime`/`duration` and issues exactly one `writeSpan` call carrying the
structural ids, the merged props and the custom attrs. -/
def disposeSpan (childName : String) (mergedProps : List (String × JsValue))
    (m : MutableSpanData) (now : Int) : MutableSpanData × Option WriteSpanCall :=
  if m.endTime.isSome then (m, none)
  else
    let e := now
    let d := e - m.startTime
    ({ m with endTime := some e, duration := some d },
     some { name := childName, duration := d,
            attrs := spreadInto (spreadInto
              [("span_id", JsValue.vStr m.id),
               ("trace_id", JsValue.vStr m.traceId),
               ("parent_id", m.parentId.elim JsValue.vNull JsValue.vStr)]
              mergedProps) m.attrs })

/-- The `end()` method from `index.ts` lines 543-547: dispatches to the
disposal handler only while `endTime` is still null. -/
def endSpan (childName : String) (mergedProps : List (String × JsValue))
    (m : MutableSpanData) (now : Int) : MutableSpanData × Option WriteSpanCall :=
  if m.endTime.isNone then disposeSpan childName mergedProps m now else (m, none)

/-- A formatted span record handed to the sink. -/
structure SpanRecord where
  name : String
  level : String
  message : String
  data : List (String × JsValue)
deriving DecidableEq, Repr

/-- `writeSpan` from `index.ts` lines 400-412: the trace gate and the debug
filter gate, then the record with `duration` flattened before the attrs. -/
def writeSpan (c : Config) (ns : String) (duration : Int)
    (attrs : List (String × JsValue)) : Option SpanRecord :=
  if !shouldTraceNamespace ns c then none
  else if !shouldDebugNamespace ns c then none
  else some { name := ns, level := "span", message := "(" ++ toString duration ++ "ms)",
              data := spreadInto [("duration", JsValue.vNum duration)] attrs }

/-- The state captured by `createSpan` in `worker.ts` lines 321-352:
closure variables plus the mutable `customSpanData` / `ended` cells. -/
structure WorkerSpanState where
  fullNamespace : String
  mergedProps : List (String × JsValue)
  spanId : String
  spanTraceId : String
  parentId : Option String
  startTime : Int
  customSpanData : List (String × JsValue)
  ended : Bool
deriving DecidableEq, Repr

/-- The wire `event` field of a worker span message (`"start"` / `"end"`;
`endEvent` models the string `"end"`). -/
inductive SpanEvent where
  | start : SpanEvent
  | endEvent : SpanEvent
deriving DecidableEq, Repr

/-- `WorkerSpanMessage` from `worker.ts` lines 67-80 (`name` models the wire
field `namespace`; `endTime`/`duration` are absent on `"start"`). -/
structure WorkerSpanMessage where
  event : SpanEvent
  name : String
  spanId : String
  traceId : String
  parentId : Option String
  startTime : Int
  endTime : Option Int
  duration : Option Int
  props : List (String × JsValue)
  spanData : List (String × JsValue)
  timestamp : Int
deriving DecidableEq, Repr

/-- Result of the worker-side `createSpan`: the span state, the emitted
`"start"` message, the span logger's child context and the updated
counters. -/
structure WorkerSpanCreation where
  state : WorkerSpanState
  startMessage : WorkerSpanMessage
  child : LoggerCtx
  gen : WorkerIdGen
deriving DecidableEq, Repr

/-- `createSpan` from `worker.ts` lines 321-352: extends the namespace,
merges props, allocates a worker span id, inherits or freshly generates the
trace id, posts a `"start"` message and hands the child logger the new span
context. -/
def createWorkerSpan (ctx : LoggerCtx) (seg : Option String)
    (spanProps : List (String × JsValue)) (g : WorkerIdGen) (now : Int) :
    WorkerSpanCreation :=
  let fullNamespace := match seg with | some s => ctx.name ++ ":" ++ s | none => ctx.name
  let mergedProps := spreadInto ctx.props spanProps
  let g1 : WorkerIdGen := { g with workerSpanIdCounter := g.workerSpanIdCounter + 1 }
  let spanId := generateWorkerSpanId g1.workerSpanIdCounter
  let tr : String × WorkerIdGen :=
    match ctx.traceId with
    | some t => (t, g1)
    | none => (generateWorkerTraceId (g1.workerTraceIdCounter + 1),
               { g1 with workerTraceIdCounter := g1.workerTraceIdCounter + 1 })
  { state := { fullNamespace := fullNamespace, mergedProps := mergedProps,
               spanId := spanId, spanTraceId := tr.1, parentId := ctx.parentSpanId,
               startTime := now, customSpanData := [], ended := false },
    startMessage := { event := .start, name := fullNamespace, spanId := spanId,
                      traceId := tr.1, parentId := ctx.parentSpanId, startTime := now,
                      endTime := none, duration := none, props := mergedProps,
                      spanData := [], timestamp := now },
    child := { name := fullNamespace, props := mergedProps,
               parentSpanId := some spanId, traceId := some tr.1 },
    gen := tr.2 }

/-- The `duration` branch of the worker-side `spanData` proxy `get` trap
(`worker.ts` line 361): always `Date.now() - startTime`, whether or not the
span has ended. -/
def workerSpanDataGetDuration (s : WorkerSpanState) (now : Int) : Int :=
  now - s.startTime

/-- The `endTime` branch of the worker-side proxy `get` trap
(`worker.ts` line 360): `Date.now()` when ended, null otherwise. -/
def workerSpanDataGetEndTime (s : WorkerSpanState) (now : Int) : Option Int :=
  if s.ended then some now else none

/-- The worker-side `spanData` proxy `set` trap (`worker.ts` lines 364-377):
same shape as the local one. -/
def workerSpanDataSet (s : WorkerSpanState) (k : String) (v : JsValue) :
    WorkerSpanState × Bool :=
  if k != "id" && k != "traceId" && k != "parentId" &&
     k != "startTime" && k != "endTime" && k != "duration" then
    ({ s with customSpanData := setProp s.customSpanData k v }, true)
  else (s, false)

/-- `endSpan` from `worker.ts` lines 380-405: no-op when already ended,
otherwise flips `ended` and posts exactly one `"end"` message with the
frozen `endTime`/`duration` and the custom span data. -/
def workerEndSpan (s : WorkerSpanState) (now : Int) :
    WorkerSpanState × Option WorkerSpanMessage :=
  if s.ended then (s, none)
  else
    ({ s with ended := true },
     some { event := .endEvent, name := s.fullNamespace, spanId := s.spanId,
            traceId := s.spanTraceId, parentId := s.parentId, startTime := s.startTime,
            endTime := some now, duration := some (now - s.startTime),
            props := s.mergedProps, spanData := s.customSpanData, timestamp := now })

/-- The span branch of `createWorkerLogHandler` (`worker.ts` lines 662-679):
a `"start"` message is ignored; an `"end"` message makes a fresh local span
under a locally-resolved logger for the namespace, copies every received
`spanData` key through the proxy `set` trap, then ends the span, emitting
through the local `writeSpan` pipeline. Returns the emitted records and the
updated local id counters. -/
def handleWorkerSpanMessage (c : Config) (g : IdGen) (msg : WorkerSpanMessage)
    (now : Int) : List SpanRecord × IdGen :=
  match msg.event with
  | .start => ([], g)
  | .endEvent =>
    let ctx := createPlainLoggerCtx msg.name []
    let creation := span ctx none msg.props g now
    let copied := msg.spanData.foldl (fun m p => (spanDataSet m p.1 p.2).1) creation.meta
    let result := endSpan creation.child.name creation.child.props copied now
    ((result.2.bind (fun call => writeSpan c call.name call.duration call.attrs)).toList,
     creation.gen)

/-- Nested local spans: span number `n+1` is created from the span logger of
span number `n` (root span created from `root`). -/
def chainState (root : LoggerCtx) (g : IdGen) (now : Int) : Nat → SpanCreation
  | 0 => span root none [] g now
  | n+1 => span (chainState root g now n).child none [] (chainState root g now n).gen now

/-- Nested worker spans, analogously. -/
def workerChainState (root : LoggerCtx) (g : WorkerIdGen) (now : Int) :
    Nat → WorkerSpanCreation
  | 0 => createWorkerSpan root none [] g now
  | n+1 => createWorkerSpan (workerChainState root g now n).child none []
      (workerChainState root g now n).gen now

/-! ## Helper lemmas -/

theorem setProp_cons_ne (hd : String × JsValue) (tl : List (String × JsValue))
    (k : String) (v : JsValue) (h : hd.1 ≠ k) :
    setProp (hd :: tl) k v = hd :: setProp tl k v := by
  by_cases htl : tl.any (fun p => p.1 == k)
  · simp [setProp, h, htl]
  · simp [setProp, h, htl]

theorem getProp_setProp (m : List (String × JsValue)) (k : String) (v : JsValue) :
    getProp (setProp m k v) k = some v := by
  induction m with
  | nil => simp [setProp, getProp]
  | cons hd tl ih =>
    by_cases h : hd.1 = k
    · simp [setProp, getProp, h]
    · rw [setProp_cons_ne hd tl k v h]
      simp only [getProp, List.find?_cons]
      have hb : (hd.1 == k) = false := by simp [h]
      simp only [hb]
      exact ih

theorem data_append_colon (p : String) : (p ++ ":").data = p.data ++ [':'] := by
  simp [String.data_append]

/-! ## Claims -/

/-- C2: `matchesNamespaceSet` returns true unconditionally when the set
contains the literal pattern `"*"`; otherwise it returns true iff the
namespace equals some pattern in the set or starts with that pattern
followed by a colon (strict colon-delimited prefix, so `"ab"` does not
match the pattern `"a"`). -/
theorem matchesNamespaceSet_spec (ns : String) (S : List String) :
    ("*" ∈ S → matchesNamespaceSet ns S = true) ∧
    (matchesNamespaceSet ns S = true ↔
      "*" ∈ S ∨ ∃ p ∈ S, ns = p ∨ (p.data ++ [':']) <+: ns.data) ∧
    matchesNamespaceSet "ab" ["a"] = false := by
  refine ⟨?_, ?_, by decide⟩
  · intro h
    simp [matchesNamespaceSet, List.contains, h]
  · by_cases h : "*" ∈ S
    · simp [matchesNamespaceSet, List.contains, h]
    · have hc : S.contains "*" = false := by simp [List.contains, h]
      simp [matchesNamespaceSet, hc, h, List.any_eq_true, jsStartsWith,
        List.isPrefixOf_iff_prefix, data_append_colon]

/-- Witness for C2 at a concrete input: the wildcard member forces a match. -/
theorem matchesNamespaceSet_spec_witness : matchesNamespaceSet "x" ["*"] = true :=
  (matchesNamespaceSet_spec "x" ["*"]).1 (by decide)

/-- C10: `setTraceFilter` with null or an empty list clears the trace filter
and changes nothing else — in particular `spansEnabled` keeps its prior
value either way; only a non-empty pattern list installs the filter and
forces `spansEnabled` to true (again leaving all other fields unchanged). -/
theorem setTraceFilter_frame (c : Config) (nss : List String) :
    setTraceFilter none c = { c with traceFilter := none } ∧
    setTraceFilter (some []) c = { c with traceFilter := none } ∧
    (setTraceFilter none c).spansEnabled = c.spansEnabled ∧
    (setTraceFilter (some []) c).spansEnabled = c.spansEnabled ∧
    (nss ≠ [] →
      setTraceFilter (some nss) c
        = { c with traceFilter := some nss, spansEnabled := true }) := by
  refine ⟨rfl, rfl, rfl, rfl, ?_⟩
  intro h
  simp [setTraceFilter, h]

/-- Witness for C10 at a concrete input: a non-empty list installs the
filter and enables spans. -/
theorem setTraceFilter_frame_witness :
    setTraceFilter (some ["a"]) defaultConfig
      = { defaultConfig with traceFilter := some ["a"], spansEnabled := true } :=
  (setTraceFilter_frame defaultConfig ["a"]).2.2.2.2 (by decide)

/-- C7: a span record is emitted iff spans are enabled, the trace filter
allows the namespace and the debug filter allows the namespace; the level
threshold is never consulted for spans (even `silent` does not suppress
them), while log emission requires both the level check and the debug
filter check. -/
theorem writeSpan_emission_spec (ns : String) (lvl : LogLevel) (c : Config)
    (d : Int) (attrs : List (String × JsValue)) :
    writeSpanEmits ns c
      = (c.spansEnabled && c.traceFilter.elim true (fun tf => matchesNamespaceSet ns tf)
          && shouldDebugNamespace ns c) ∧
    writeSpanEmits ns { c with currentLogLevel := lvl } = writeSpanEmits ns c ∧
    writeSpanEmits ns { c with currentLogLevel := .silent } = writeSpanEmits ns c ∧
    (writeSpan c ns d attrs).isSome = writeSpanEmits ns c ∧
    writeLogEmits ns lvl c = (shouldLog lvl c && shouldDebugNamespace ns c) := by
  refine ⟨?_, rfl, rfl, ?_, rfl⟩
  · cases h : c.traceFilter <;>
      cases he : c.spansEnabled <;>
        simp [writeSpanEmits, shouldTraceNamespace, h, he]
  · cases hT : shouldTraceNamespace ns c <;>
      cases hD : shouldDebugNamespace ns c <;>
        simp [writeSpan, writeSpanEmits, hT, hD]

/-- C5: writing one of the six structural keys through the `spanData` proxy
is a silent no-op on both engines — the value is discarded, the trap returns
without raising, and the state is unchanged; any other key is stored in the
custom attribute map, overwriting a prior value. -/
theorem spanData_reserved_write_noop (m : MutableSpanData) (s : WorkerSpanState)
    (k : String) (v : JsValue) :
    ((k = "id" ∨ k = "traceId" ∨ k = "parentId" ∨ k = "startTime" ∨
      k = "endTime" ∨ k = "duration") →
      spanDataSet m k v = (m, false) ∧ workerSpanDataSet s k v = (s, false)) ∧
    ((k ≠ "id" ∧ k ≠ "traceId" ∧ k ≠ "parentId" ∧ k ≠ "startTime" ∧
      k ≠ "endTime" ∧ k ≠ "duration") →
      spanDataSet m k v = ({ m with attrs := setProp m.attrs k v }, true) ∧
      getProp (spanDataSet m k v).1.attrs k = some v ∧
      workerSpanDataSet s k v
        = ({ s with customSpanData := setProp s.customSpanData k v }, true) ∧
      getProp (workerSpanDataSet s k v).1.customSpanData k = some v) := by
  constructor
  · rintro (rfl | rfl | rfl | rfl | rfl | rfl) <;> exact ⟨rfl, rfl⟩
  · rintro ⟨h1, h2, h3, h4, h5, h6⟩
    have hb : (k != "id" && k != "traceId" && k != "parentId" &&
        k != "startTime" && k != "endTime" && k != "duration") = true := by
      simp [h1, h2, h3, h4, h5, h6]
    refine ⟨?_, ?_, ?_, ?_⟩
    · simp [spanDataSet, hb]
    · simp [spanDataSet, hb, getProp_setProp]
    · simp [workerSpanDataSet, hb]
    · simp [workerSpanDataSet, hb, getProp_setProp]

/-- A concrete span state used by witnesses. -/
def exampleMeta : MutableSpanData :=
  { id := "sp_1", traceId := "tr_1", parentId := none, startTime := 0,
    endTime := none, duration := none, attrs := [] }

/-- A concrete worker span state used by witnesses. -/
def exampleWorkerSpan : WorkerSpanState :=
  { fullNamespace := "a:b", mergedProps := [], spanId := "wsp_1",
    spanTraceId := "wtr_1", parentId := none, startTime := 0,
    customSpanData := [], ended := false }

/-- Witness for C5 at concrete inputs: a reserved write is dropped, a custom
write is stored. -/
theorem spanData_reserved_write_noop_witness :
    spanDataSet exampleMeta "id" JsValue.vNull = (exampleMeta, false) ∧
    getProp (spanDataSet exampleMeta "count" (JsValue.vNum 42)).1.attrs "count"
      = some (JsValue.vNum 42) :=
  ⟨((spanData_reserved_write_noop exampleMeta exampleWorkerSpan "id"
      JsValue.vNull).1 (Or.inl rfl)).1,
   ((spanData_reserved_write_noop exampleMeta exampleWorkerSpan "count"
      (JsValue.vNum 42)).2 (by decide)).2.1⟩

/-- Modelled from the spec's cascade for `allowed(namespace, filterSet)`
(§4.4), used as the reference decision procedure: allow when both sides are
unset/empty; otherwise deny when a non-empty exclude set matches; otherwise
follow a non-empty include set; otherwise allow. -/
def allowedSpec (ns : String) (c : Config) : Bool :=
  if (c.debugIncludes = none ∨ c.debugIncludes = some []) ∧
     (c.debugExcludes = none ∨ c.debugExcludes = some []) then true
  else if (match c.debugExcludes with
           | some ex => !ex.isEmpty && matchesNamespaceSet ns ex
           | none => false) then false
  else if (match c.debugIncludes with
           | some inc => !inc.isEmpty
           | none => false) then
    matchesNamespaceSet ns (c.debugIncludes.getD [])
  else true

/-- C1: on every reachable debug filter state (the sets are never non-null
and empty), the log emission decision follows the spec cascade: allow when
nothing is configured; a matching non-empty exclude set denies even when the
include set matches; otherwise a non-empty include set decides; otherwise
allow. In particular `"a:b"` is denied and `"a:c"` allowed under
`{includes: {"a"}, excludes: {"a:b"}}`. -/
theorem shouldDebugNamespace_cascade :
    (∀ (ns : String) (c : Config), c.debugIncludes ≠ some [] →
      c.debugExcludes ≠ some [] →
      shouldDebugNamespace ns c = allowedSpec ns c) ∧
    shouldDebugNamespace "a:b"
      { defaultConfig with debugIncludes := some ["a"], debugExcludes := some ["a:b"] }
      = false ∧
    shouldDebugNamespace "a:c"
      { defaultConfig with debugIncludes := some ["a"], debugExcludes := some ["a:b"] }
      = true := by
  refine ⟨?_, by decide, by decide⟩
  intro ns c hi he
  cases hI : c.debugIncludes with
  | none =>
    cases hE : c.debugExcludes with
    | none => simp [shouldDebugNamespace, allowedSpec, hI, hE]
    | some ex =>
      have hne : ex ≠ [] := fun hh => he (by rw [hE, hh])
      cases hm : matchesNamespaceSet ns ex <;>
        simp [shouldDebugNamespace, allowedSpec, hI, hE, hm, hne]
  | some inc =>
    have hinc : inc ≠ [] := fun hh => hi (by rw [hI, hh])
    cases hE : c.debugExcludes with
    | none => simp [shouldDebugNamespace, allowedSpec, hI, hE, hinc]
    | some ex =>
      have hne : ex ≠ [] := fun hh => he (by rw [hE, hh])
      cases hm : matchesNamespaceSet ns ex <;>
        simp [shouldDebugNamespace, allowedSpec, hI, hE, hm, hne, hinc]

/-- Witness for C1 at a concrete input: unrestricted state allows. -/
theorem shouldDebugNamespace_cascade_witness :
    shouldDebugNamespace "a" defaultConfig = allowedSpec "a" defaultConfig :=
  shouldDebugNamespace_cascade.1 "a" defaultConfig (by decide) (by decide)

/-- C4: `end()` is idempotent on both engines. From Active, one call freezes
`endTime` at the current time, moves the span to Ended and issues exactly
one emission; on an Ended span, `end()` and the disposal handler return
immediately with no emission and no state change, so `end()` called twice
produces exactly one emission. -/
theorem end_idempotent (cn : String) (props : List (String × JsValue))
    (m : MutableSpanData) (s : WorkerSpanState) (t1 t2 : Int) :
    (m.endTime = none →
      (endSpan cn props m t1).1.endTime = some t1 ∧
      ((endSpan cn props m t1).2).isSome = true ∧
      (endSpan cn props (endSpan cn props m t1).1 t2).1 = (endSpan cn props m t1).1 ∧
      (endSpan cn props (endSpan cn props m t1).1 t2).2 = none) ∧
    (m.endTime ≠ none →
      endSpan cn props m t1 = (m, none) ∧ disposeSpan cn props m t1 = (m, none)) ∧
    (s.ended = false →
      (workerEndSpan s t1).1.ended = true ∧
      ((workerEndSpan s t1).2).isSome = true ∧
      workerEndSpan (workerEndSpan s t1).1 t2 = ((workerEndSpan s t1).1, none)) ∧
    (s.ended = true → workerEndSpan s t1 = (s, none)) := by
  refine ⟨?_, ?_, ?_, ?_⟩
  · intro h
    simp [endSpan, disposeSpan, h]
  · intro h
    have hs : m.endTime.isSome := Option.isSome_iff_ne_none.mpr h
    have hn : m.endTime.isNone = false := by
      cases hh : m.endTime with
      | none => exact absurd hh h
      | some e => rfl
    constructor
    · simp [endSpan, hn]
    · simp [disposeSpan, hs]
  · intro h
    simp [workerEndSpan, h]
  · intro h
    simp [workerEndSpan, h]

/-- Witness for C4 at a concrete input: ending twice emits exactly once. -/
theorem end_idempotent_witness :
    (endSpan "a" [] exampleMeta 5).1.endTime = some 5 ∧
    ((endSpan "a" [] exampleMeta 5).2).isSome = true ∧
    (endSpan "a" [] (endSpan "a" [] exampleMeta 5).1 9).2 = none :=
  ⟨((end_idempotent "a" [] exampleMeta exampleWorkerSpan 5 9).1 rfl).1,
   ((end_idempotent "a" [] exampleMeta exampleWorkerSpan 5 9).1 rfl).2.1,
   ((end_idempotent "a" [] exampleMeta exampleWorkerSpan 5 9).1 rfl).2.2.2⟩

/-- C3 counterexample: on the worker-side span engine, `spanData.duration`
is not frozen once `end()` has been called — on a span created by the worker
engine at time 0 and ended at time 5, two subsequent reads (at times 7 and
9) return different values, refuting the claim that every read after `end()`
returns the frozen `endTime - startTime`. -/
theorem worker_duration_not_frozen_counterexample :
    ((workerEndSpan
        (createWorkerSpan (createPlainLoggerCtx "a" []) none [] ⟨0, 0⟩ 0).state 5).1).ended
      = true ∧
    workerSpanDataGetDuration
        ((workerEndSpan
          (createWorkerSpan (createPlainLoggerCtx "a" []) none [] ⟨0, 0⟩ 0).state 5).1) 7
      ≠ workerSpanDataGetDuration
        ((workerEndSpan
          (createWorkerSpan (createPlainLoggerCtx "a" []) none [] ⟨0, 0⟩ 0).state 5).1) 9 := by
  decide

/-- C3 (amended): on the local span engine, `spanData.duration` while Active
is `now - startTime`, non-decreasing across reads under a monotone clock and
non-negative once `now ≥ startTime`; after `end()` it is frozen at
`endTime - startTime` and every later read returns that same value. On the
worker-side span engine, `spanData.duration` always reads `now - startTime`,
even after `end()`; the frozen `endTime - startTime` is carried only in the
`"end"` relay message. -/
theorem span_duration_spec (m : MutableSpanData) (s : WorkerSpanState)
    (cn : String) (props : List (String × JsValue)) (t n n1 n2 : Int) :
    (m.endTime = none → spanDataGetDuration m n = n - m.startTime) ∧
    (n1 ≤ n2 → spanDataGetDuration m n1 ≤ spanDataGetDuration m n2) ∧
    (m.endTime = none → m.startTime ≤ n → 0 ≤ spanDataGetDuration m n) ∧
    (m.endTime = none →
      ∀ u, spanDataGetDuration (endSpan cn props m t).1 u = t - m.startTime) ∧
    workerSpanDataGetDuration s n = n - s.startTime ∧
    (s.startTime ≤ n → 0 ≤ workerSpanDataGetDuration s n) ∧
    (s.ended = false →
      workerSpanDataGetDuration (workerEndSpan s t).1 n = n - s.startTime ∧
      ((workerEndSpan s t).2).map WorkerSpanMessage.duration
        = some (some (t - s.startTime))) := by
  refine ⟨?_, ?_, ?_, ?_, rfl, ?_, ?_⟩
  · intro h
    simp [spanDataGetDuration, h]
  · intro h
    cases he : m.endTime with
    | none =>
      simp only [spanDataGetDuration, he]
      omega
    | some e => simp [spanDataGetDuration, he]
  · intro h1 h2
    simp [spanDataGetDuration, h1]
    omega
  · intro h u
    simp [endSpan, disposeSpan, h, spanDataGetDuration]
  · intro h
    simp [workerSpanDataGetDuration]
    omega
  · intro h
    constructor
    · simp [workerEndSpan, h, workerSpanDataGetDuration]
    · simp [workerEndSpan, h]

/-- Witness for C3 (amended) at a concrete input: the local engine freezes
the duration at end time. -/
theorem span_duration_spec_witness :
    ∀ u, spanDataGetDuration (endSpan "a" [] exampleMeta 5).1 u = 5 - exampleMeta.startTime :=
  (span_duration_spec exampleMeta exampleWorkerSpan "a" [] 5 0 0 0).2.2.2.1 rfl

theorem jsStartsWith_dash (e : String) : jsStartsWith ("-" ++ e) "-" = true := by
  simp [jsStartsWith, String.data_append, List.isPrefixOf]

theorem jsSliceOne_dash (e : String) : jsSliceOne ("-" ++ e) = e := by
  cases e with
  | mk d => simp [jsSliceOne, String.data_append]

theorem shouldDebugNamespace_fields (ns : String) (c1 c2 : Config)
    (hi : c1.debugIncludes = c2.debugIncludes)
    (he : c1.debugExcludes = c2.debugExcludes) :
    shouldDebugNamespace ns c1 = shouldDebugNamespace ns c2 := by
  simp [shouldDebugNamespace, hi, he]

theorem setDebugFilter_wf (input : Option (List String)) (c0 : Config) :
    (∀ l, (setDebugFilter input c0).debugIncludes = some l →
      l ≠ [] ∧ ∀ p ∈ l, jsStartsWith p "-" = false) ∧
    (∀ l, (setDebugFilter input c0).debugExcludes = some l → l ≠ []) := by
  cases input with
  | none => simp [setDebugFilter]
  | some nss =>
    by_cases h : nss.isEmpty
    · simp [setDebugFilter, h]
    · constructor
      · intro l hl
        by_cases hf : (nss.filter (fun p => !(jsStartsWith p "-"))).isEmpty
        · simp [setDebugFilter, h, hf] at hl
        · simp [setDebugFilter, h, hf] at hl
          subst hl
          refine ⟨by simpa using hf, ?_⟩
          intro p hp
          have := (List.mem_filter.mp hp).2
          simpa using this
      · intro l hl
        by_cases hf : ((nss.filter (fun p => jsStartsWith p "-")).map jsSliceOne).isEmpty
        · simp [setDebugFilter, h, hf] at hl
        · simp [setDebugFilter, h, hf] at hl
          subst hl
          simpa using hf

theorem setDebugFilter_roundTrip_fields (c : Config)
    (hWFi : ∀ l, c.debugIncludes = some l →
      l ≠ [] ∧ ∀ p ∈ l, jsStartsWith p "-" = false)
    (hWFe : ∀ l, c.debugExcludes = some l → l ≠ []) :
    (setDebugFilter (getDebugFilter c) c).debugIncludes = c.debugIncludes ∧
    (setDebugFilter (getDebugFilter c) c).debugExcludes = c.debugExcludes := by
  cases hI : c.debugIncludes with
  | none =>
    cases hE : c.debugExcludes with
    | none => simp [getDebugFilter, setDebugFilter, hI, hE]
    | some ex =>
      have hne : ex ≠ [] := hWFe ex hE
      have hmark : ∀ q ∈ ex.map (fun e => "-" ++ e), jsStartsWith q "-" = true := by
        intro q hq
        rcases List.mem_map.mp hq with ⟨e, _, rfl⟩
        exact jsStartsWith_dash e
      have h1 : (ex.map (fun e => "-" ++ e)).filter (fun p => !(jsStartsWith p "-")) = [] := by
        rw [List.filter_eq_nil_iff]
        intro a ha
        simp [hmark a ha]
      have h2 : (ex.map (fun e => "-" ++ e)).filter (fun p => jsStartsWith p "-")
          = ex.map (fun e => "-" ++ e) := by
        rw [List.filter_eq_self]
        intro a ha
        simp [hmark a ha]
      have h3 : (ex.map (fun e => "-" ++ e)).map jsSliceOne = ex := by
        rw [List.map_map]
        have hid : (jsSliceOne ∘ fun e => "-" ++ e) = id := funext fun e => jsSliceOne_dash e
        rw [hid, List.map_id]
      simp [getDebugFilter, setDebugFilter, hI, hE, h1, h2, h3, hne]
  | some inc =>
    have hinc := hWFi inc hI
    have h4 : inc.filter (fun p => !(jsStartsWith p "-")) = inc := by
      rw [List.filter_eq_self]
      intro a ha
      simp [hinc.2 a ha]
    have h5 : inc.filter (fun p => jsStartsWith p "-") = [] := by
      rw [List.filter_eq_nil_iff]
      intro a ha
      simp [hinc.2 a ha]
    cases hE : c.debugExcludes with
    | none =>
      simp [getDebugFilter, setDebugFilter, hI, hE, h4, h5, hinc.1]
    | some ex =>
      have hne : ex ≠ [] := hWFe ex hE
      have hmark : ∀ q ∈ ex.map (fun e => "-" ++ e), jsStartsWith q "-" = true := by
        intro q hq
        rcases List.mem_map.mp hq with ⟨e, _, rfl⟩
        exact jsStartsWith_dash e
      have h1 : (ex.map (fun e => "-" ++ e)).filter (fun p => !(jsStartsWith p "-")) = [] := by
        rw [List.filter_eq_nil_iff]
        intro a ha
        simp [hmark a ha]
      have h2 : (ex.map (fun e => "-" ++ e)).filter (fun p => jsStartsWith p "-")
          = ex.map (fun e => "-" ++ e) := by
        rw [List.filter_eq_self]
        intro a ha
        simp [hmark a ha]
      have h3 : (ex.map (fun e => "-" ++ e)).map jsSliceOne = ex := by
        rw [List.map_map]
        have hid : (jsSliceOne ∘ fun e => "-" ++ e) = id := funext fun e => jsSliceOne_dash e
        rw [hid, List.map_id]
      simp [getDebugFilter, setDebugFilter, hI, hE, List.filter_append, List.filter_map,
        h1, h2, h3, h4, h5, hne, hinc.1]

theorem getDebugFilter_mem (c : Config) (l : List String) (p : String)
    (hg : getDebugFilter c = some l) :
    p ∈ l ↔ (∃ inc, c.debugIncludes = some inc ∧ p ∈ inc) ∨
      (∃ ex q, c.debugExcludes = some ex ∧ q ∈ ex ∧ p = "-" ++ q) := by
  cases hI : c.debugIncludes with
  | none =>
    cases hE : c.debugExcludes with
    | none => simp [getDebugFilter, hI, hE] at hg
    | some ex =>
      simp only [getDebugFilter, hI, hE, Option.isNone_none, Option.isNone_some,
        Bool.true_and, Bool.and_false, Bool.false_and, if_false, Bool.false_eq_true,
        ite_false, Option.some_inj, Option.getD_none, Option.getD_some] at hg
      subst hg
      simp [List.mem_map, eq_comm]
  | some inc =>
    cases hE : c.debugExcludes with
    | none =>
      simp only [getDebugFilter, hI, hE, Option.isNone_none, Option.isNone_some,
        Bool.true_and, Bool.and_false, Bool.false_and, if_false, Bool.false_eq_true,
        ite_false, Option.some_inj, Option.getD_none, Option.getD_some] at hg
      subst hg
      simp
    | some ex =>
      simp only [getDebugFilter, hI, hE, Option.isNone_none, Option.isNone_some,
        Bool.true_and, Bool.and_false, Bool.false_and, if_false, Bool.false_eq_true,
        ite_false, Option.some_inj, Option.getD_none, Option.getD_some] at hg
      subst hg
      simp [List.mem_append, List.mem_map, eq_comm]

/-- C6: for every debug filter state reachable via `setDebugFilter`, feeding
`getDebugFilter` back into `setDebugFilter` leaves the emission decision
unchanged for every namespace, and `getDebugFilter` reproduces exact pattern
membership, with exclude patterns re-marked by a leading `-`. -/
theorem setDebugFilter_getDebugFilter_roundTrip (input : Option (List String))
    (c0 : Config) (ns : String) (l : List String) (p : String) :
    shouldDebugNamespace ns
        (setDebugFilter (getDebugFilter (setDebugFilter input c0)) (setDebugFilter input c0))
      = shouldDebugNamespace ns (setDebugFilter input c0) ∧
    (getDebugFilter (setDebugFilter input c0) = none ↔
      (setDebugFilter input c0).debugIncludes = none ∧
      (setDebugFilter input c0).debugExcludes = none) ∧
    (getDebugFilter (setDebugFilter input c0) = some l →
      (p ∈ l ↔
        (∃ inc, (setDebugFilter input c0).debugIncludes = some inc ∧ p ∈ inc) ∨
        (∃ ex q, (setDebugFilter input c0).debugExcludes = some ex ∧ q ∈ ex ∧
          p = "-" ++ q))) := by
  have hwf := setDebugFilter_wf input c0
  have hf := setDebugFilter_roundTrip_fields (setDebugFilter input c0) hwf.1 hwf.2
  refine ⟨shouldDebugNamespace_fields ns _ _ hf.1 hf.2, ?_, getDebugFilter_mem _ l p⟩
  cases hI : (setDebugFilter input c0).debugIncludes <;>
    cases hE : (setDebugFilter input c0).debugExcludes <;>
      simp [getDebugFilter, hI, hE]

/-- Witness for C6 at a concrete input: a mixed include/exclude filter
survives the round trip. -/
theorem setDebugFilter_getDebugFilter_roundTrip_witness :
    shouldDebugNamespace "a:b"
        (setDebugFilter
          (getDebugFilter (setDebugFilter (some ["a", "-a:b"]) defaultConfig))
          (setDebugFilter (some ["a", "-a:b"]) defaultConfig))
      = shouldDebugNamespace "a:b" (setDebugFilter (some ["a", "-a:b"]) defaultConfig) :=
  (setDebugFilter_getDebugFilter_roundTrip (some ["a", "-a:b"]) defaultConfig "a:b" [] "").1

theorem span_fields (ctx : LoggerCtx) (seg : Option String)
    (props : List (String × JsValue)) (g : IdGen) (now : Int) :
    (span ctx seg props g now).meta.parentId = ctx.parentSpanId ∧
    (span ctx seg props g now).child.parentSpanId
      = some (span ctx seg props g now).meta.id ∧
    (span ctx seg props g now).child.traceId
      = some (span ctx seg props g now).meta.traceId ∧
    (∀ t, ctx.traceId = some t → (span ctx seg props g now).meta.traceId = t) ∧
    (ctx.traceId = none →
      (span ctx seg props g now).meta.traceId
        = generateTraceId (g.traceIdCounter + 1)) := by
  cases h : ctx.traceId <;> simp [span, h]

theorem createWorkerSpan_fields (ctx : LoggerCtx) (seg : Option String)
    (props : List (String × JsValue)) (g : WorkerIdGen) (now : Int) :
    (createWorkerSpan ctx seg props g now).state.parentId = ctx.parentSpanId ∧
    (createWorkerSpan ctx seg props g now).child.parentSpanId
      = some (createWorkerSpan ctx seg props g now).state.spanId ∧
    (createWorkerSpan ctx seg props g now).child.traceId
      = some (createWorkerSpan ctx seg props g now).state.spanTraceId ∧
    (∀ t, ctx.traceId = some t →
      (createWorkerSpan ctx seg props g now).state.spanTraceId = t) ∧
    (ctx.traceId = none →
      (createWorkerSpan ctx seg props g now).state.spanTraceId
        = generateWorkerTraceId (g.workerTraceIdCounter + 1)) := by
  cases h : ctx.traceId <;> simp [createWorkerSpan, h]

theorem chainState_child_links (root : LoggerCtx) (g : IdGen) (now : Int) (k : Nat) :
    (chainState root g now k).child.parentSpanId
      = some ((chainState root g now k).meta.id) ∧
    (chainState root g now k).child.traceId
      = some ((chainState root g now k).meta.traceId) := by
  cases k with
  | zero =>
    exact ⟨(span_fields root none [] g now).2.1, (span_fields root none [] g now).2.2.1⟩
  | succ n =>
    exact ⟨(span_fields (chainState root g now n).child none []
        (chainState root g now n).gen now).2.1,
      (span_fields (chainState root g now n).child none []
        (chainState root g now n).gen now).2.2.1⟩

theorem workerChainState_child_links (root : LoggerCtx) (g : WorkerIdGen) (now : Int)
    (k : Nat) :
    (workerChainState root g now k).child.parentSpanId
      = some ((workerChainState root g now k).state.spanId) ∧
    (workerChainState root g now k).child.traceId
      = some ((workerChainState root g now k).state.spanTraceId) := by
  cases k with
  | zero =>
    exact ⟨(createWorkerSpan_fields root none [] g now).2.1,
      (createWorkerSpan_fields root none [] g now).2.2.1⟩
  | succ n =>
    exact ⟨(createWorkerSpan_fields (workerChainState root g now n).child none []
        (workerChainState root g now n).gen now).2.1,
      (createWorkerSpan_fields (workerChainState root g now n).child none []
        (workerChainState root g now n).gen now).2.2.1⟩

/-- C9: in any chain of nested spans, each child records its parent's span
id as `parentId` and inherits the parent's `traceId`, so every span's
`traceId` equals the root ancestor's; a root span (created under a context
with no ancestor span) gets `parentId` null and a freshly generated trace
id. This holds for the local engine and for the worker-side engine. -/
theorem span_trace_inheritance (root wroot : LoggerCtx) (g : IdGen)
    (wg : WorkerIdGen) (now wnow : Int) :
    (root.parentSpanId = none → root.traceId = none →
      (chainState root g now 0).meta.parentId = none ∧
      (chainState root g now 0).meta.traceId = generateTraceId (g.traceIdCounter + 1) ∧
      (∀ k, (chainState root g now (k+1)).meta.parentId
        = some ((chainState root g now k).meta.id)) ∧
      (∀ k, (chainState root g now k).meta.traceId
        = (chainState root g now 0).meta.traceId)) ∧
    (wroot.parentSpanId = none → wroot.traceId = none →
      (workerChainState wroot wg wnow 0).state.parentId = none ∧
      (workerChainState wroot wg wnow 0).state.spanTraceId
        = generateWorkerTraceId (wg.workerTraceIdCounter + 1) ∧
      (∀ k, (workerChainState wroot wg wnow (k+1)).state.parentId
        = some ((workerChainState wroot wg wnow k).state.spanId)) ∧
      (∀ k, (workerChainState wroot wg wnow k).state.spanTraceId
        = (workerChainState wroot wg wnow 0).state.spanTraceId)) := by
  constructor
  · intro hp ht
    have hstep : ∀ k, (chainState root g now (k+1)).meta.traceId
        = (chainState root g now k).meta.traceId := by
      intro k
      exact (span_fields (chainState root g now k).child none []
          (chainState root g now k).gen now).2.2.2.1 _
        (chainState_child_links root g now k).2
    refine ⟨?_, ?_, ?_, ?_⟩
    · show (span root none [] g now).meta.parentId = none
      rw [(span_fields root none [] g now).1, hp]
    · exact (span_fields root none [] g now).2.2.2.2 ht
    · intro k
      show (span (chainState root g now k).child none []
          (chainState root g now k).gen now).meta.parentId
        = some ((chainState root g now k).meta.id)
      rw [(span_fields (chainState root g now k).child none []
          (chainState root g now k).gen now).1]
      exact (chainState_child_links root g now k).1
    · intro k
      induction k with
      | zero => rfl
      | succ n ih => rw [hstep n, ih]
  · intro hp ht
    have hstep : ∀ k, (workerChainState wroot wg wnow (k+1)).state.spanTraceId
        = (workerChainState wroot wg wnow k).state.spanTraceId := by
      intro k
      exact (createWorkerSpan_fields (workerChainState wroot wg wnow k).child none []
          (workerChainState wroot wg wnow k).gen wnow).2.2.2.1 _
        (workerChainState_child_links wroot wg wnow k).2
    refine ⟨?_, ?_, ?_, ?_⟩
    · show (createWorkerSpan wroot none [] wg wnow).state.parentId = none
      rw [(createWorkerSpan_fields wroot none [] wg wnow).1, hp]
    · exact (createWorkerSpan_fields wroot none [] wg wnow).2.2.2.2 ht
    · intro k
      show (createWorkerSpan (workerChainState wroot wg wnow k).child none []
          (workerChainState wroot wg wnow k).gen wnow).state.parentId
        = some ((workerChainState wroot wg wnow k).state.spanId)
      rw [(createWorkerSpan_fields (workerChainState wroot wg wnow k).child none []
          (workerChainState wroot wg wnow k).gen wnow).1]
      exact (workerChainState_child_links wroot wg wnow k).1
    · intro k
      induction k with
      | zero => rfl
      | succ n ih => rw [hstep n, ih]

/-- Witness for C9 at a concrete input: the second nested span of a chain
rooted at a plain logger still carries the root's trace id. -/
theorem span_trace_inheritance_witness :
    (chainState (createPlainLoggerCtx "app" []) ⟨0, 0⟩ 0 2).meta.traceId
      = (chainState (createPlainLoggerCtx "app" []) ⟨0, 0⟩ 0 0).meta.traceId :=
  ((span_trace_inheritance (createPlainLoggerCtx "app" [])
      (createPlainLoggerCtx "app" []) ⟨0, 0⟩ ⟨0, 0⟩ 0 0).1 rfl rfl).2.2.2 2

/-- C8 (Scenario D): a producer-side worker span with custom attribute
`count = 42`, once ended, yields an `"end"` relay message carrying the
producer's full namespace and `count = 42`; processing that message on the
consumer (spans enabled, no restricting filters) emits exactly one span
record, which carries the producer's full namespace and `count: 42`; a
`"start"` span message causes no consumer action. -/
theorem relay_roundTrip (ns : String) (seg : Option String) (wg : WorkerIdGen)
    (t0 t1 tc : Int) (c : Config) (g : IdGen)
    (hs : c.spansEnabled = true) (htf : c.traceFilter = none)
    (hdi : c.debugIncludes = none) (hde : c.debugExcludes = none) :
    handleWorkerSpanMessage c g
        (createWorkerSpan (createPlainLoggerCtx ns []) seg [] wg t0).startMessage tc
      = ([], g) ∧
    ∃ msg,
      (workerEndSpan
          ((workerSpanDataSet
            (createWorkerSpan (createPlainLoggerCtx ns []) seg [] wg t0).state
            "count" (JsValue.vNum 42)).1) t1).2 = some msg ∧
      msg.name = (createWorkerSpan (createPlainLoggerCtx ns []) seg [] wg t0).state.fullNamespace ∧
      msg.spanData = [("count", JsValue.vNum 42)] ∧
      ((handleWorkerSpanMessage c g msg tc).1).length = 1 ∧
      ∀ r ∈ (handleWorkerSpanMessage c g msg tc).1,
        r.name = msg.name ∧ getProp r.data "count" = some (JsValue.vNum 42) := by
  refine ⟨rfl, ⟨_, rfl, rfl, rfl, ?_, ?_⟩⟩
  · simp [handleWorkerSpanMessage, span, createPlainLoggerCtx, spanDataSet, endSpan,
      disposeSpan, setProp, spreadInto, writeSpan, shouldTraceNamespace,
      shouldDebugNamespace, createWorkerSpan, workerSpanDataSet, workerEndSpan,
      hs, htf, hdi, hde]
  · intro r hr
    simp [handleWorkerSpanMessage, span, createPlainLoggerCtx, spanDataSet, endSpan,
      disposeSpan, setProp, spreadInto, writeSpan, shouldTraceNamespace,
      shouldDebugNamespace, createWorkerSpan, workerSpanDataSet, workerEndSpan,
      hs, htf, hdi, hde] at hr
    subst hr
    constructor
    · rfl
    · simp [getProp, spreadInto, setProp]

/-- Witness for C8 at a concrete input: the consumer ignores the producer's
`"start"` message. -/
theorem relay_roundTrip_witness :
    handleWorkerSpanMessage { defaultConfig with spansEnabled := true } ⟨0, 0⟩
        (createWorkerSpan (createPlainLoggerCtx "km:worker" []) (some "parse") []
          ⟨0, 0⟩ 0).startMessage 100
      = ([], ⟨0, 0⟩) :=
  (relay_roundTrip "km:worker" (some "parse") ⟨0, 0⟩ 0 5 100
    { defaultConfig with spansEnabled := true } ⟨0, 0⟩ rfl rfl rfl rfl).1

end BeornLogger
